import Mathlib

/-!
# Verification of the usage tracking and aggregation engine

Shallow embedding of the usage-tracking core of the repository:

* `normalizeUsage` / `fetchClaudeUsage` embed
  `src/packages/shared/src/auth/claude-usage.ts` (`fetchClaudeUsage`,
  lines 46–89): one authenticated request, outcome classification,
  and normalization of the raw payload.
* `HookState` / `step` embed the React hook `useClaudeUsage`
  (`src/unnamed/part_000`): the poller lifecycle (initial fetch,
  60-second interval, manual refresh, effect cleanup), including the
  host runtime's guarantees that the effect cleanup runs before any
  re-run of the effect and that state setters on an unmounted
  component are dropped.
* `statsOf` embeds the `stats` memo of `AnalyticsPanel`
  (`src/apps/electron/src/renderer/pages/analytics/AnalyticsPanel.tsx`,
  lines 215–252): aggregation over session records and the ranked
  top-10 list.

JavaScript numbers are modelled as `ℚ` (the claims under study concern
ordering, summation and defaulting, not rounding), token counts as `Nat`,
and absent/null values as `Option`.
-/

namespace CraftUsage

/-! ## Normalizer and fetcher (`claude-usage.ts`) -/

/-- Normalized usage data for one window (interface `UsageWindow`):
`utilization` percentage plus the ISO timestamp when the window resets,
`none` when not applicable (`resetsAt: string | null`). -/
structure UsageWindow where
  utilization : ℚ
  resetsAt : Option String
deriving DecidableEq, Repr

/-- Raw API response window (interface `ApiUsageWindow`, snake_case).
In the raw JSON either field may be missing, and `resets_at` may be
`null`; a missing field and `null` behave identically under the
source's `?? ` defaulting, so both are `none` here. -/
structure ApiUsageWindow where
  utilization : Option ℚ
  resets_at : Option String
deriving DecidableEq, Repr

/-- Raw response of the usage API (interface `ClaudeUsageApiResponse`).
`five_hour` and `seven_day` are required by the declared type but may be
absent in a real payload (the source guards them with `?.`), so they are
`Option` here. `seven_day_opus` is optional; the source tests it for
truthiness, under which an absent field and `null` coincide (`none`).
The unused `seven_day_oauth_apps` field is never read and is omitted. -/
structure ClaudeUsageApiResponse where
  five_hour : Option ApiUsageWindow
  seven_day : Option ApiUsageWindow
  seven_day_opus : Option ApiUsageWindow
deriving DecidableEq, Repr

/-- Normalized usage data (interface `ClaudeUsageData`): the snapshot
handed to the UI.  `sevenDayOpus` is omitted (`none`) when the raw
payload had no `seven_day_opus`. -/
structure ClaudeUsageData where
  fiveHour : UsageWindow
  sevenDay : UsageWindow
  sevenDayOpus : Option UsageWindow
deriving DecidableEq, Repr

/-- The normalization step of `fetchClaudeUsage` (claude-usage.ts,
lines 71–84):

* `utilization: data.five_hour?.utilization ?? 0` —
  `(p.five_hour.bind fun w => w.utilization).getD 0`;
* `resetsAt: data.five_hour?.resets_at ?? null` —
  `p.five_hour.bind fun w => w.resets_at`;
* `sevenDayOpus: data.seven_day_opus ? { ... } : undefined` — a present
  object is truthy, so the window is built exactly when the field is
  present and non-null. -/
def normalizeUsage (p : ClaudeUsageApiResponse) : ClaudeUsageData where
  fiveHour :=
    { utilization := (p.five_hour.bind fun w => w.utilization).getD 0
      resetsAt := p.five_hour.bind fun w => w.resets_at }
  sevenDay :=
    { utilization := (p.seven_day.bind fun w => w.utilization).getD 0
      resetsAt := p.seven_day.bind fun w => w.resets_at }
  sevenDayOpus :=
    p.seven_day_opus.map fun w =>
      { utilization := w.utilization.getD 0
        resetsAt := w.resets_at }

/-- What the transport layer hands back to `fetchClaudeUsage`: either the
`fetch` promise rejects (DNS, TLS, timeout, ...), or an HTTP response
arrives with a status code and a body.  `body = none` models a body that
is not valid JSON, on which `response.json()` rejects. -/
inductive TransportOutcome where
  | netError : TransportOutcome
  | response (status : Nat) (body : Option ClaudeUsageApiResponse) : TransportOutcome
deriving DecidableEq, Repr

/-- Observable outcome of one `fetchClaudeUsage` call: the resolved value
(the function never rejects: every failure path returns `null`), plus
whether `console.error` fired in its `catch` block. -/
structure FetchOutcome where
  result : Option ClaudeUsageData
  errorLogged : Bool
deriving DecidableEq, Repr

/-- `response.ok`: status in the inclusive range 200–299. -/
def responseOk (status : Nat) : Bool :=
  200 ≤ status && status < 300

/-- `fetchClaudeUsage` (claude-usage.ts, lines 46–89).  Classification:
* promise rejection → caught, `console.error`, `null`;
* `!response.ok` with status 403 or 401 → `null`, no log;
* any other `!response.ok` → `throw` → caught, `console.error`, `null`;
* ok but `response.json()` rejects → caught, `console.error`, `null`;
* ok with a JSON body → normalized snapshot, no log. -/
def fetchClaudeUsage : TransportOutcome → FetchOutcome
  | .netError => ⟨none, true⟩
  | .response status body =>
    if !responseOk status then
      if status = 403 || status = 401 then ⟨none, false⟩
      else ⟨none, true⟩
    else
      match body with
      | none => ⟨none, true⟩
      | some data => ⟨some (normalizeUsage data), false⟩

/-! ## Poller (`useClaudeUsage` hook, `src/unnamed/part_000`)

The hook is embedded as a labelled transition system.  A `HookState`
carries the three React state cells (`usage`, `isLoading`,
`isAvailable`), the interval ref (`pollIntervalRef`), the set of live
`setInterval` handles owned by the host runtime, whether the component
is still mounted, the number of `fetchUsage` calls awaiting the bridge,
and a counter of fetches initiated (for the claims about "how many
fetches a tick produces").  Host-runtime semantics baked into the
transitions, with the source line they come from:

* React runs an effect's cleanup before re-running the effect and on
  unmount (the cleanup at lines 62–67 clears the interval stored in the
  ref);
* state setters called from a fetch that settles after unmount are
  dropped by React — the component's state cells no longer change;
* `console.error` in `fetchUsage`'s catch (line 41) runs regardless of
  mount state, so it is counted separately from the state cells. -/

/-- Result of awaiting `window.electronAPI.getClaudeUsage()`: the bridge
promise either resolves with `ClaudeUsageData | null` or rejects. -/
inductive BridgeResult where
  | resolved (data : Option ClaudeUsageData) : BridgeResult
  | rejected : BridgeResult
deriving DecidableEq, Repr

/-- The bridge proxies `fetchClaudeUsage`, which never throws: the
promise resolves with the fetcher's return value. -/
def bridgeOf (t : TransportOutcome) : BridgeResult :=
  .resolved (fetchClaudeUsage t).result

/-- State of one `useClaudeUsage` hook instance plus the host-runtime
resources it owns. -/
structure HookState where
  /-- `usage` state cell: latest snapshot or `null`. -/
  usage : Option ClaudeUsageData
  /-- `isLoading` state cell. -/
  isLoading : Bool
  /-- `isAvailable` state cell. -/
  isAvailable : Bool
  /-- `pollIntervalRef.current`: id of the interval stored in the ref. -/
  intervalRef : Option Nat
  /-- Ids of `setInterval` timers the runtime still holds live. -/
  liveIntervals : List Nat
  /-- Fresh id for the next `setInterval` call. -/
  nextId : Nat
  /-- Whether the component is still mounted. -/
  mounted : Bool
  /-- `fetchUsage` calls whose `await` has not settled yet. -/
  inFlight : Nat
  /-- Total `fetchUsage` calls initiated so far. -/
  fetchCount : Nat
  /-- Times `fetchUsage`'s catch block has logged at error level. -/
  errorLogs : Nat
deriving DecidableEq, Repr

/-- State when the component first renders: `useState(null)`,
`useState(true)`, `useState(false)`, empty ref, no timer, no fetch. -/
def initState : HookState where
  usage := none
  isLoading := true
  isAvailable := false
  intervalRef := none
  liveIntervals := []
  nextId := 0
  mounted := true
  inFlight := 0
  fetchCount := 0
  errorLogs := 0

/-- Events that drive one hook instance. -/
inductive Event where
  /-- React runs the effect body (initial mount, or a re-run; React runs
  the previous cleanup first). -/
  | runEffect : Event
  /-- One poll interval elapses: every live interval fires its callback
  `fetchUsage` once. -/
  | tick : Event
  /-- The caller invokes `refresh()`, which just calls `fetchUsage`. -/
  | refresh : Event
  /-- One in-flight `fetchUsage`'s awaited bridge promise settles. -/
  | complete (r : BridgeResult) : Event
  /-- React unmounts the component, running the effect cleanup. -/
  | unmount : Event
deriving DecidableEq, Repr

/-- Effect cleanup (lines 62–67): if the ref holds an interval handle,
`clearInterval` it and null the ref. -/
def cleanupEffect (s : HookState) : HookState :=
  match s.intervalRef with
  | none => s
  | some id =>
    { s with liveIntervals := s.liveIntervals.erase id, intervalRef := none }

/-- A `fetchUsage` call starts: the bridge request is issued and the
continuation after `await` is pending. -/
def spawnFetch (s : HookState) : HookState :=
  { s with inFlight := s.inFlight + 1, fetchCount := s.fetchCount + 1 }

/-- The continuation of `fetchUsage` (lines 36–46) once the awaited
bridge promise settles: on resolution `setUsage(data)` and
`setIsAvailable(data !== null)`; on rejection `console.error`,
`setUsage(null)`, `setIsAvailable(false)`; `finally`
`setIsLoading(false)`.  React drops the state-setter calls when the
component is unmounted; the `console.error` runs regardless. -/
def applyResult (s : HookState) (r : BridgeResult) : HookState :=
  match r with
  | .resolved data =>
    if s.mounted then
      { s with usage := data, isAvailable := data.isSome, isLoading := false }
    else s
  | .rejected =>
    let s := { s with errorLogs := s.errorLogs + 1 }
    if s.mounted then
      { s with usage := none, isAvailable := false, isLoading := false }
    else s

/-- `pollIntervalRef.current = setInterval(fetchUsage, POLL_INTERVAL_MS)`
(line 60): the runtime allocates a fresh interval and the ref stores
its handle. -/
def armTimer (s : HookState) : HookState :=
  { s with
      intervalRef := some s.nextId
      liveIntervals := s.liveIntervals ++ [s.nextId]
      nextId := s.nextId + 1 }

/-- One transition of the hook. -/
def step (s : HookState) : Event → HookState
  | .runEffect =>
    -- React contract: the previous run's cleanup executes first.
    -- Effect body (lines 55–68): immediate fetchUsage(), then
    -- pollIntervalRef.current = setInterval(fetchUsage, 60_000).
    armTimer (spawnFetch (cleanupEffect s))
  | .tick =>
    -- Every live interval fires fetchUsage once per period.
    { s with
        inFlight := s.inFlight + s.liveIntervals.length
        fetchCount := s.fetchCount + s.liveIntervals.length }
  | .refresh => spawnFetch s
  | .complete r =>
    -- Meaningful only when a fetch is actually outstanding.
    if s.inFlight = 0 then s
    else { applyResult s r with inFlight := s.inFlight - 1 }
  | .unmount =>
    { cleanupEffect s with mounted := false }

/-- Run a sequence of events from a state. -/
def run (s : HookState) (es : List Event) : HookState :=
  es.foldl step s

/-! ## Session aggregator (`AnalyticsPanel.stats`, AnalyticsPanel.tsx 215–252) -/

/-- JavaScript `x || 0` on a number: falsy (here: zero) becomes `0`,
anything else is returned unchanged.  On present numeric fields this is
the identity; it is kept to mirror the source expression. -/
def jsOr0 {α : Type} [Zero α] [DecidableEq α] (x : α) : α :=
  if x = 0 then 0 else x

/-- `SessionUsageDelta`: one session's percentage-point contribution to
the subscription windows. -/
structure SessionUsageDelta where
  fiveHourDelta : ℚ
  sevenDayDelta : ℚ
  sevenDayOpusDelta : Option ℚ
deriving DecidableEq, Repr

/-- `SessionTokenUsage`: token totals attached to a session record. -/
structure SessionTokenUsage where
  inputTokens : Nat
  outputTokens : Nat
  totalTokens : Nat
  contextTokens : Nat
  costUsd : ℚ
  usageDelta : Option SessionUsageDelta
deriving DecidableEq, Repr

/-- The slice of a session record the aggregator reads: identity,
hidden flag, optional token usage. -/
structure SessionMeta where
  id : String
  hidden : Bool
  tokenUsage : Option SessionTokenUsage
deriving DecidableEq, Repr

/-- `a.tokenUsage?.usageDelta?.fiveHourDelta ?? 0`
(the sort comparator's key, lines 238–239). -/
def deltaOf (s : SessionMeta) : ℚ :=
  ((s.tokenUsage.bind fun tu => tu.usageDelta).map fun d => d.fiveHourDelta).getD 0

/-- `s.tokenUsage?.usageDelta` is truthy: the filter predicate of the
`sortedSessions` pipeline (line 236); a present object is truthy. -/
def hasDelta (s : SessionMeta) : Bool :=
  (s.tokenUsage.bind fun tu => tu.usageDelta).isSome

/-- The comparator `(a, b) => bDelta - aDelta` returns `≤ 0` exactly when
`deltaOf b ≤ deltaOf a`: element `a` may stay before `b` iff this
holds, i.e. the sort is descending in `deltaOf`. -/
def sortLE (a b : SessionMeta) : Bool :=
  decide (deltaOf b ≤ deltaOf a)

/-- Accumulator of the `for (const session of sessions)` loop
(lines 223–232). -/
structure AggAcc where
  totalFiveHourDelta : ℚ
  totalSevenDayDelta : ℚ
  totalTokens : Nat
  sessionsWithUsage : Nat
deriving DecidableEq, Repr

/-- One iteration of the aggregation loop: if the session has token
usage, add `totalTokens || 0`; if it additionally has a usage delta, add
`fiveHourDelta || 0` and `sevenDayDelta || 0` and count it. -/
def aggStep (acc : AggAcc) (s : SessionMeta) : AggAcc :=
  match s.tokenUsage with
  | none => acc
  | some tu =>
    let acc := { acc with totalTokens := acc.totalTokens + jsOr0 tu.totalTokens }
    match tu.usageDelta with
    | none => acc
    | some d =>
      { acc with
          totalFiveHourDelta := acc.totalFiveHourDelta + jsOr0 d.fiveHourDelta
          totalSevenDayDelta := acc.totalSevenDayDelta + jsOr0 d.sevenDayDelta
          sessionsWithUsage := acc.sessionsWithUsage + 1 }

/-- The value of the `stats` memo. -/
structure AggregateStats where
  totalSessions : Nat
  sessionsWithUsage : Nat
  totalFiveHourDelta : ℚ
  totalSevenDayDelta : ℚ
  totalTokens : Nat
  topSessions : List SessionMeta
deriving DecidableEq, Repr

/-- The body of the `stats` memo computed over the visible (non-hidden)
sessions; `statsOf` applies it after the hidden filter, mirroring
`const sessions = ...filter(s => !s.hidden)`.

`Array.prototype.sort` is required (ES2019) to be stable, and the
comparator is consistent — it induces the total preorder
`deltaOf b ≤ deltaOf a` — so every conforming engine produces the one
stable descending order; `List.mergeSort`, which is stable, is that
order. -/
def statsOfVisible (sessions : List SessionMeta) : AggregateStats :=
  let acc := sessions.foldl aggStep ⟨0, 0, 0, 0⟩
  let sortedSessions :=
    (((sessions.filter fun s => hasDelta s).mergeSort sortLE).take 10)
  { totalSessions := sessions.length
    sessionsWithUsage := acc.sessionsWithUsage
    totalFiveHourDelta := acc.totalFiveHourDelta
    totalSevenDayDelta := acc.totalSevenDayDelta
    totalTokens := acc.totalTokens
    topSessions := sortedSessions }

/-- The `stats` memo (lines 215–252): filter out hidden sessions, then
aggregate and rank. -/
def statsOf (all : List SessionMeta) : AggregateStats :=
  statsOfVisible (all.filter fun s => !s.hidden)

/-! ## Claims about the normalizer -/

/-- C4.  For every successful payload, normalization maps a missing
`utilization` to `0` and a missing or null `resets_at` to absent
(totality is inherent: `normalizeUsage` is a Lean function, so it never
throws), and the snapshot contains a `sevenDayOpus` window iff
`seven_day_opus` is present and non-null in the input; otherwise the
field is omitted, never emitted as a zeroed window. -/
theorem normalize_defaults_and_opus_iff (p : ClaudeUsageApiResponse) :
    ((normalizeUsage p).sevenDayOpus.isSome ↔ p.seven_day_opus.isSome)
    ∧ (∀ w, p.five_hour = some w → w.utilization = none →
        (normalizeUsage p).fiveHour.utilization = 0)
    ∧ (∀ w, p.five_hour = some w → w.resets_at = none →
        (normalizeUsage p).fiveHour.resetsAt = none)
    ∧ (∀ w, p.seven_day = some w → w.utilization = none →
        (normalizeUsage p).sevenDay.utilization = 0)
    ∧ (∀ w, p.seven_day = some w → w.resets_at = none →
        (normalizeUsage p).sevenDay.resetsAt = none)
    ∧ (∀ w, p.seven_day_opus = some w → w.utilization = none →
        (normalizeUsage p).sevenDayOpus = some ⟨0, w.resets_at⟩) := by
  refine ⟨by simp [normalizeUsage], ?_, ?_, ?_, ?_, ?_⟩ <;>
    intro w hw hu <;> simp [normalizeUsage, hw, hu]

/-- Witness for C4 at a concrete payload: all optional inner fields
missing, Opus window present with missing utilization. -/
theorem normalize_defaults_and_opus_iff_witness :
    (normalizeUsage ⟨some ⟨none, none⟩, some ⟨none, none⟩,
        some ⟨none, some "X"⟩⟩).fiveHour.utilization = 0
    ∧ (normalizeUsage ⟨some ⟨none, none⟩, some ⟨none, none⟩,
        some ⟨none, some "X"⟩⟩).sevenDay.resetsAt = none
    ∧ (normalizeUsage ⟨some ⟨none, none⟩, some ⟨none, none⟩,
        some ⟨none, some "X"⟩⟩).sevenDayOpus = some ⟨0, some "X"⟩ :=
  ⟨(normalize_defaults_and_opus_iff _).2.1 ⟨none, none⟩ rfl rfl,
   (normalize_defaults_and_opus_iff _).2.2.2.2.1 ⟨none, none⟩ rfl rfl,
   (normalize_defaults_and_opus_iff _).2.2.2.2.2 ⟨none, some "X"⟩ rfl rfl⟩

/-- C10.  Normalization is total even when a required window is missing
from the payload: an absent `five_hour` or `seven_day` yields a window
with utilization `0` and absent reset instant, with no exception (the
source guards the required windows with `?.`). -/
theorem normalize_total_missing_window (p : ClaudeUsageApiResponse) :
    (p.five_hour = none → (normalizeUsage p).fiveHour = ⟨0, none⟩)
    ∧ (p.seven_day = none → (normalizeUsage p).sevenDay = ⟨0, none⟩) := by
  constructor <;> intro h <;> simp [normalizeUsage, h]

/-- Witness for C10: the empty payload normalizes to zeroed required
windows and no Opus window. -/
theorem normalize_total_missing_window_witness :
    (normalizeUsage ⟨none, none, none⟩).fiveHour = ⟨0, none⟩
    ∧ (normalizeUsage ⟨none, none, none⟩).sevenDay = ⟨0, none⟩ :=
  ⟨(normalize_total_missing_window ⟨none, none, none⟩).1 rfl,
   (normalize_total_missing_window ⟨none, none, none⟩).2 rfl⟩

/-! ## Claims about the fetch-outcome classification -/

/-- C5.  An HTTP 401 or 403 is an ordinary value, not an exception and
not an error-level log: the fetcher returns `null` before its `throw`,
so nothing is logged (`errorLogged = false`), the bridge promise
resolves (is not rejected), and a mounted poller that receives the
completion sets availability to `false` and the snapshot to `null`
without running its own error-logging catch. -/
theorem unauthorized_is_unavailable_value (status : Nat)
    (body : Option ClaudeUsageApiResponse) (h : status = 401 ∨ status = 403)
    (s : HookState) (hm : s.mounted = true) (hf : 0 < s.inFlight) :
    fetchClaudeUsage (.response status body) = ⟨none, false⟩
    ∧ bridgeOf (.response status body) = .resolved none
    ∧ (step s (.complete (bridgeOf (.response status body)))).isAvailable = false
    ∧ (step s (.complete (bridgeOf (.response status body)))).usage = none
    ∧ (step s (.complete (bridgeOf (.response status body)))).errorLogs
        = s.errorLogs := by
  have hfetch : fetchClaudeUsage (.response status body) = ⟨none, false⟩ := by
    rcases h with h | h <;> subst h <;> simp [fetchClaudeUsage, responseOk]
  have hbr : bridgeOf (.response status body) = .resolved none := by
    simp [bridgeOf, hfetch]
  have hne : ¬ s.inFlight = 0 := Nat.pos_iff_ne_zero.mp hf
  refine ⟨hfetch, hbr, ?_, ?_, ?_⟩ <;> simp [hbr, step, applyResult, hne, hm]

/-- Witness for C5: a 401 at a poller holding a live snapshot. -/
theorem unauthorized_is_unavailable_value_witness :
    fetchClaudeUsage (.response 401 none) = ⟨none, false⟩
    ∧ bridgeOf (.response 401 none) = .resolved none
    ∧ (step ⟨some ⟨⟨42, some "T"⟩, ⟨7, none⟩, none⟩, false, true, some 0, [0],
          1, true, 1, 1, 0⟩
        (.complete (bridgeOf (.response 401 none)))).isAvailable = false
    ∧ (step ⟨some ⟨⟨42, some "T"⟩, ⟨7, none⟩, none⟩, false, true, some 0, [0],
          1, true, 1, 1, 0⟩
        (.complete (bridgeOf (.response 401 none)))).usage = none
    ∧ (step ⟨some ⟨⟨42, some "T"⟩, ⟨7, none⟩, none⟩, false, true, some 0, [0],
          1, true, 1, 1, 0⟩
        (.complete (bridgeOf (.response 401 none)))).errorLogs
        = (⟨some ⟨⟨42, some "T"⟩, ⟨7, none⟩, none⟩, false, true, some 0, [0],
          1, true, 1, 1, 0⟩ : HookState).errorLogs :=
  unauthorized_is_unavailable_value 401 none (Or.inl rfl) _ rfl (by decide)

/-- A transport-level failure as the spec lists them: the `fetch`
promise rejects (DNS, TLS, timeout), or the response is successful but
its body is not valid JSON (`response.json()` rejects). -/
def TransportFailure : TransportOutcome → Prop
  | .netError => True
  | .response status body => responseOk status = true ∧ body = none

/-- C1 counterexample.  The claim says a transport failure leaves the
stored snapshot and availability unchanged and never demotes an
eligible user.  Concretely: a poller that has a snapshot and is
`available` after one successful cycle, whose next interval fetch dies
with a network error, ends with its snapshot cleared to `null` and
availability demoted to `false`. -/
theorem netError_demotes_availability_cex :
    (run initState [.runEffect,
        .complete (bridgeOf (.response 200
          (some ⟨some ⟨some 42, some "T"⟩, some ⟨some 7, none⟩, none⟩)))]).isAvailable
        = true
    ∧ (run initState [.runEffect,
        .complete (bridgeOf (.response 200
          (some ⟨some ⟨some 42, some "T"⟩, some ⟨some 7, none⟩, none⟩)))]).usage.isSome
        = true
    ∧ (run initState [.runEffect,
        .complete (bridgeOf (.response 200
          (some ⟨some ⟨some 42, some "T"⟩, some ⟨some 7, none⟩, none⟩))),
        .tick,
        .complete (bridgeOf .netError)]).isAvailable = false
    ∧ (run initState [.runEffect,
        .complete (bridgeOf (.response 200
          (some ⟨some ⟨some 42, some "T"⟩, some ⟨some 7, none⟩, none⟩))),
        .tick,
        .complete (bridgeOf .netError)]).usage = none := by
  decide

/-- C1 as amended.  A transport failure (network error, timeout,
malformed JSON body) is caught and logged by the fetcher, which returns
`null`; a mounted poller receiving that completion does not keep its
previous state: it overwrites the stored snapshot with `null` and sets
availability to `false`, demoting an eligible user until a later
successful cycle. -/
theorem transport_failure_clears_snapshot (t : TransportOutcome)
    (ht : TransportFailure t) (s : HookState) (hm : s.mounted = true)
    (hf : 0 < s.inFlight) :
    fetchClaudeUsage t = ⟨none, true⟩
    ∧ (step s (.complete (bridgeOf t))).usage = none
    ∧ (step s (.complete (bridgeOf t))).isAvailable = false := by
  have hfetch : fetchClaudeUsage t = ⟨none, true⟩ := by
    match t, ht with
    | .netError, _ => rfl
    | .response status body, ⟨hok, hb⟩ => subst hb; simp [fetchClaudeUsage, hok]
  have hne : ¬ s.inFlight = 0 := Nat.pos_iff_ne_zero.mp hf
  refine ⟨hfetch, ?_, ?_⟩ <;> simp [bridgeOf, hfetch, step, applyResult, hne, hm]

/-- Witness for the amended C1: a network error completing at a poller
that held a snapshot. -/
theorem transport_failure_clears_snapshot_witness :
    fetchClaudeUsage .netError = ⟨none, true⟩
    ∧ (step ⟨some ⟨⟨42, some "T"⟩, ⟨7, none⟩, none⟩, false, true, some 0, [0],
          1, true, 1, 1, 0⟩ (.complete (bridgeOf .netError))).usage = none
    ∧ (step ⟨some ⟨⟨42, some "T"⟩, ⟨7, none⟩, none⟩, false, true, some 0, [0],
          1, true, 1, 1, 0⟩ (.complete (bridgeOf .netError))).isAvailable
        = false :=
  transport_failure_clears_snapshot .netError trivial _ rfl (by decide)

/-- C2 counterexample.  The claim says a non-success status other than
401/403 preserves the prior snapshot and leaves availability unchanged.
Concretely: after one successful cycle, an interval fetch answered with
HTTP 500 clears the stored snapshot to `null` and sets availability to
`false` (the error is logged — `errorLogged = true` — but nothing is
preserved). -/
theorem http500_clears_snapshot_cex :
    (fetchClaudeUsage (.response 500 none)).errorLogged = true
    ∧ (run initState [.runEffect,
        .complete (bridgeOf (.response 200
          (some ⟨some ⟨some 42, some "T"⟩, some ⟨some 7, none⟩, none⟩)))]).isAvailable
        = true
    ∧ (run initState [.runEffect,
        .complete (bridgeOf (.response 200
          (some ⟨some ⟨some 42, some "T"⟩, some ⟨some 7, none⟩, none⟩)))]).usage.isSome
        = true
    ∧ (run initState [.runEffect,
        .complete (bridgeOf (.response 200
          (some ⟨some ⟨some 42, some "T"⟩, some ⟨some 7, none⟩, none⟩))),
        .tick,
        .complete (bridgeOf (.response 500 none))]).isAvailable = false
    ∧ (run initState [.runEffect,
        .complete (bridgeOf (.response 200
          (some ⟨some ⟨some 42, some "T"⟩, some ⟨some 7, none⟩, none⟩))),
        .tick,
        .complete (bridgeOf (.response 500 none))]).usage = none := by
  decide

/-- C2 as amended.  A non-success HTTP status other than 401 and 403 is
thrown and caught inside the fetcher, which logs at error level
(`errorLogged = true`) and returns `null`; the poller then does not
preserve the prior snapshot: a mounted poller receiving the completion
clears the snapshot to `null` and sets availability to `false`. -/
theorem fetch_error_logged_and_clears (status : Nat)
    (body : Option ClaudeUsageApiResponse) (hok : responseOk status = false)
    (h401 : status ≠ 401) (h403 : status ≠ 403) (s : HookState)
    (hm : s.mounted = true) (hf : 0 < s.inFlight) :
    fetchClaudeUsage (.response status body) = ⟨none, true⟩
    ∧ (step s (.complete (bridgeOf (.response status body)))).usage = none
    ∧ (step s (.complete (bridgeOf (.response status body)))).isAvailable
        = false := by
  have hfetch : fetchClaudeUsage (.response status body) = ⟨none, true⟩ := by
    simp [fetchClaudeUsage, hok, h401, h403]
  have hne : ¬ s.inFlight = 0 := Nat.pos_iff_ne_zero.mp hf
  refine ⟨hfetch, ?_, ?_⟩ <;> simp [bridgeOf, hfetch, step, applyResult, hne, hm]

/-- Witness for the amended C2: HTTP 500 completing at a poller that
held a snapshot. -/
theorem fetch_error_logged_and_clears_witness :
    fetchClaudeUsage (.response 500 none) = ⟨none, true⟩
    ∧ (step ⟨some ⟨⟨42, some "T"⟩, ⟨7, none⟩, none⟩, false, true, some 0, [0],
          1, true, 1, 1, 0⟩
        (.complete (bridgeOf (.response 500 none)))).usage = none
    ∧ (step ⟨some ⟨⟨42, some "T"⟩, ⟨7, none⟩, none⟩, false, true, some 0, [0],
          1, true, 1, 1, 0⟩
        (.complete (bridgeOf (.response 500 none)))).isAvailable = false :=
  fetch_error_logged_and_clears 500 none (by decide) (by decide) (by decide) _
    rfl (by decide)

/-! ## Poller lifecycle invariants -/

@[simp] theorem cleanupEffect_usage (s : HookState) :
    (cleanupEffect s).usage = s.usage := by
  unfold cleanupEffect; split <;> rfl

@[simp] theorem cleanupEffect_isLoading (s : HookState) :
    (cleanupEffect s).isLoading = s.isLoading := by
  unfold cleanupEffect; split <;> rfl

@[simp] theorem cleanupEffect_isAvailable (s : HookState) :
    (cleanupEffect s).isAvailable = s.isAvailable := by
  unfold cleanupEffect; split <;> rfl

@[simp] theorem cleanupEffect_mounted (s : HookState) :
    (cleanupEffect s).mounted = s.mounted := by
  unfold cleanupEffect; split <;> rfl

@[simp] theorem cleanupEffect_inFlight (s : HookState) :
    (cleanupEffect s).inFlight = s.inFlight := by
  unfold cleanupEffect; split <;> rfl

@[simp] theorem cleanupEffect_fetchCount (s : HookState) :
    (cleanupEffect s).fetchCount = s.fetchCount := by
  unfold cleanupEffect; split <;> rfl

@[simp] theorem cleanupEffect_nextId (s : HookState) :
    (cleanupEffect s).nextId = s.nextId := by
  unfold cleanupEffect; split <;> rfl

@[simp] theorem applyResult_intervalRef (s : HookState) (r : BridgeResult) :
    (applyResult s r).intervalRef = s.intervalRef := by
  cases r <;> dsimp only [applyResult] <;> split <;> rfl

@[simp] theorem applyResult_liveIntervals (s : HookState) (r : BridgeResult) :
    (applyResult s r).liveIntervals = s.liveIntervals := by
  cases r <;> dsimp only [applyResult] <;> split <;> rfl

@[simp] theorem applyResult_mounted (s : HookState) (r : BridgeResult) :
    (applyResult s r).mounted = s.mounted := by
  cases r <;> dsimp only [applyResult] <;> split <;> rfl

@[simp] theorem applyResult_fetchCount (s : HookState) (r : BridgeResult) :
    (applyResult s r).fetchCount = s.fetchCount := by
  cases r <;> dsimp only [applyResult] <;> split <;> rfl

theorem applyResult_isLoading_unmounted (s : HookState) (r : BridgeResult)
    (hm : s.mounted = false) : (applyResult s r).isLoading = s.isLoading := by
  cases r <;> simp [applyResult, hm]

theorem applyResult_usage_unmounted (s : HookState) (r : BridgeResult)
    (hm : s.mounted = false) : (applyResult s r).usage = s.usage := by
  cases r <;> simp [applyResult, hm]

theorem applyResult_isAvailable_unmounted (s : HookState) (r : BridgeResult)
    (hm : s.mounted = false) : (applyResult s r).isAvailable = s.isAvailable := by
  cases r <;> simp [applyResult, hm]

/-- The `setInterval` handles held by the runtime are exactly the one in
the ref, if any: the hook never leaks a timer. -/
def TimerInv (s : HookState) : Prop :=
  s.liveIntervals = s.intervalRef.toList

theorem timerInv_init : TimerInv initState := rfl

theorem cleanupEffect_timer (s : HookState) (h : TimerInv s) :
    (cleanupEffect s).liveIntervals = [] ∧ (cleanupEffect s).intervalRef = none := by
  unfold TimerInv at h
  unfold cleanupEffect
  cases href : s.intervalRef <;> simp_all

theorem timerInv_step (s : HookState) (h : TimerInv s) (e : Event) :
    TimerInv (step s e) := by
  cases e with
  | runEffect =>
    obtain ⟨h1, h2⟩ := cleanupEffect_timer s h
    simp [TimerInv, step, armTimer, spawnFetch, h1]
  | tick => exact h
  | refresh => exact h
  | complete r =>
    unfold TimerInv at h ⊢
    simp only [step]
    split
    · exact h
    · simpa using h
  | unmount =>
    obtain ⟨h1, h2⟩ := cleanupEffect_timer s h
    simp [TimerInv, step, h1, h2]

theorem timerInv_run (s : HookState) (h : TimerInv s) (tr : List Event) :
    TimerInv (run s tr) := by
  induction tr generalizing s with
  | nil => exact h
  | cons e tr ih => exact ih (step s e) (timerInv_step s h e)

/-- A stopped poller: unmounted, ref cleared, no live timer. -/
def Frozen (s : HookState) : Prop :=
  s.mounted = false ∧ s.intervalRef = none ∧ s.liveIntervals = []

theorem unmount_frozen (s : HookState) (h : TimerInv s) :
    Frozen (step s .unmount) := by
  obtain ⟨h1, h2⟩ := cleanupEffect_timer s h
  simp [Frozen, step, h1, h2]

theorem cleanupEffect_of_refNone (s : HookState) (h : s.intervalRef = none) :
    cleanupEffect s = s := by
  unfold cleanupEffect
  rw [h]

/-- After stop, every event except an effect re-run (impossible on an
unmounted component) leaves the poller frozen, its three observable
state cells untouched, and — unless the event is an explicit
`refresh()` call — initiates no fetch. -/
theorem frozen_step (s : HookState) (hF : Frozen s) (e : Event)
    (he : e ≠ Event.runEffect) :
    Frozen (step s e)
    ∧ (step s e).usage = s.usage
    ∧ (step s e).isLoading = s.isLoading
    ∧ (step s e).isAvailable = s.isAvailable
    ∧ (e ≠ Event.refresh → (step s e).fetchCount = s.fetchCount) := by
  obtain ⟨hm, hr, hl⟩ := hF
  cases e with
  | runEffect => exact absurd rfl he
  | tick => simp [Frozen, step, hm, hr, hl]
  | refresh => simp [Frozen, step, spawnFetch, hm, hr, hl]
  | complete r =>
    simp only [step]
    split
    · simp [Frozen, hm, hr, hl]
    · refine ⟨⟨by simpa using hm, by simpa using hr, by simpa using hl⟩,
        by simpa using applyResult_usage_unmounted s r hm,
        by simpa using applyResult_isLoading_unmounted s r hm,
        by simpa using applyResult_isAvailable_unmounted s r hm,
        fun _ => by simp⟩
  | unmount => simp [Frozen, step, cleanupEffect_of_refNone s hr, hm, hr, hl]

theorem frozen_run (s : HookState) (hF : Frozen s) (tr : List Event)
    (h : Event.runEffect ∉ tr) :
    Frozen (run s tr)
    ∧ (run s tr).usage = s.usage
    ∧ (run s tr).isLoading = s.isLoading
    ∧ (run s tr).isAvailable = s.isAvailable
    ∧ (Event.refresh ∉ tr → (run s tr).fetchCount = s.fetchCount) := by
  induction tr generalizing s with
  | nil => exact ⟨hF, rfl, rfl, rfl, fun _ => rfl⟩
  | cons e tr ih =>
    have he : e ≠ Event.runEffect := fun hc => h (hc ▸ List.mem_cons_self e tr)
    have htr : Event.runEffect ∉ tr := fun hc => h (List.mem_cons_of_mem e hc)
    obtain ⟨hF1, hu, hlo, hav, hfc⟩ := frozen_step s hF e he
    obtain ⟨hF2, hu2, hlo2, hav2, hfc2⟩ := ih (step s e) hF1 htr
    refine ⟨hF2, hu2.trans hu, hlo2.trans hlo, hav2.trans hav, fun hnr => ?_⟩
    have hner : e ≠ Event.refresh := fun hc => hnr (hc ▸ List.mem_cons_self e tr)
    have hntr : Event.refresh ∉ tr := fun hc => hnr (List.mem_cons_of_mem e hc)
    exact (hfc2 hntr).trans (hfc hner)

theorem runEffect_single_timer (s : HookState) (h : TimerInv s) :
    (step s .runEffect).liveIntervals.length = 1 := by
  obtain ⟨h1, h2⟩ := cleanupEffect_timer s h
  simp [step, armTimer, spawnFetch, h1]

/-! ## Claims about the poller lifecycle -/

/-- C6.  After `stop()` (the unmount cleanup) the poller's observable
state never changes again: over any subsequent events — interval ticks,
completions of fetches that were already in flight (their results are
dropped), further unmounts — the stored snapshot, availability and
loading flag stay exactly as they were at stop, and no fetch is ever
initiated unless `refresh()` is explicitly invoked.  (`runEffect` is
excluded: React never re-runs the effect of an unmounted instance.) -/
theorem stop_freezes_poller (tr tr2 : List Event)
    (h2 : Event.runEffect ∉ tr2) :
    (run (step (run initState tr) .unmount) tr2).usage
        = (step (run initState tr) .unmount).usage
    ∧ (run (step (run initState tr) .unmount) tr2).isLoading
        = (step (run initState tr) .unmount).isLoading
    ∧ (run (step (run initState tr) .unmount) tr2).isAvailable
        = (step (run initState tr) .unmount).isAvailable
    ∧ (Event.refresh ∉ tr2 →
        (run (step (run initState tr) .unmount) tr2).fetchCount
          = (step (run initState tr) .unmount).fetchCount) := by
  have hInv := timerInv_run initState timerInv_init tr
  have hF := unmount_frozen _ hInv
  exact (frozen_run _ hF tr2 h2).2

/-- Witness for C6: start, stop, then a tick and the completion of the
in-flight initial fetch (a network error, at that) change nothing. -/
theorem stop_freezes_poller_witness :
    (run (step (run initState [Event.runEffect]) .unmount)
        [Event.tick, Event.complete (bridgeOf .netError)]).usage
      = (step (run initState [Event.runEffect]) .unmount).usage
    ∧ (run (step (run initState [Event.runEffect]) .unmount)
        [Event.tick, Event.complete (bridgeOf .netError)]).isLoading
      = (step (run initState [Event.runEffect]) .unmount).isLoading
    ∧ (run (step (run initState [Event.runEffect]) .unmount)
        [Event.tick, Event.complete (bridgeOf .netError)]).isAvailable
      = (step (run initState [Event.runEffect]) .unmount).isAvailable
    ∧ (run (step (run initState [Event.runEffect]) .unmount)
        [Event.tick, Event.complete (bridgeOf .netError)]).fetchCount
      = (step (run initState [Event.runEffect]) .unmount).fetchCount := by
  have h := stop_freezes_poller [Event.runEffect]
    [Event.tick, Event.complete (bridgeOf .netError)] (by decide)
  exact ⟨h.1, h.2.1, h.2.2.1, h.2.2.2 (by decide)⟩

/-- C7.  Starting is idempotent: from any reachable state, at most one
timer handle is live; after running the effect twice exactly one
recurring timer is active, and one elapsed interval then initiates
exactly one fetch, not two. -/
theorem start_idempotent_single_timer (tr : List Event) :
    (run initState tr).liveIntervals.length ≤ 1
    ∧ (step (step (run initState tr) .runEffect) .runEffect).liveIntervals.length
        = 1
    ∧ (step (step (step (run initState tr) .runEffect) .runEffect)
          .tick).fetchCount
        = (step (step (run initState tr) .runEffect) .runEffect).fetchCount
            + 1 := by
  have hInv := timerInv_run initState timerInv_init tr
  have hInv1 := timerInv_step _ hInv .runEffect
  have hone := runEffect_single_timer _ hInv1
  refine ⟨?_, hone, ?_⟩
  · rw [hInv]
    cases (run initState tr).intervalRef <;> simp
  · have htick : ∀ s : HookState, (step s .tick).fetchCount
        = s.fetchCount + s.liveIntervals.length := fun s => rfl
    rw [htick, hone]

/-- C9.  The loading flag starts `true`, becomes `false` when a fetch
settles at the mounted poller — whatever the result, success, `null`,
or rejection — and no transition ever sets it back to `true`: ticks,
manual refreshes and effect runs leave it untouched. -/
theorem loading_flag_lifecycle :
    initState.isLoading = true
    ∧ (∀ (s : HookState) (r : BridgeResult), s.mounted = true →
        0 < s.inFlight → (step s (.complete r)).isLoading = false)
    ∧ (∀ (s : HookState) (e : Event), s.isLoading = false →
        (step s e).isLoading = false)
    ∧ (∀ s : HookState, (step s .tick).isLoading = s.isLoading)
    ∧ (∀ s : HookState, (step s .refresh).isLoading = s.isLoading)
    ∧ (∀ s : HookState, (step s .runEffect).isLoading = s.isLoading) := by
  refine ⟨rfl, ?_, ?_, fun s => rfl, fun s => rfl, fun s => by
    simp [step, armTimer, spawnFetch]⟩
  · intro s r hm hf
    have hne : ¬ s.inFlight = 0 := Nat.pos_iff_ne_zero.mp hf
    cases r <;> simp [step, hne, applyResult, hm]
  · intro s e h
    cases e with
    | runEffect => simpa [step, armTimer, spawnFetch] using h
    | tick => simpa [step] using h
    | refresh => simpa [step, spawnFetch] using h
    | complete r =>
      simp only [step]
      split
      · exact h
      · cases r <;> dsimp only [applyResult] <;> split <;> simp [h]
    | unmount => simpa [step] using h

/-- Witness for C9: a settling fetch at a mounted poller drops the flag,
and a tick at a poller that finished loading does not raise it. -/
theorem loading_flag_lifecycle_witness :
    (step ⟨none, true, false, some 0, [0], 1, true, 1, 1, 0⟩
        (.complete (.resolved none))).isLoading = false
    ∧ (step ⟨none, false, true, some 0, [0], 1, true, 0, 1, 0⟩
        Event.tick).isLoading = false :=
  ⟨loading_flag_lifecycle.2.1 _ _ rfl (by decide),
   loading_flag_lifecycle.2.2.1 _ Event.tick rfl⟩

/-! ## Claims about the session aggregator -/

/-- A session that survives both filters of the ranking pipeline:
not hidden, and carrying a usage delta. -/
def eligible (s : SessionMeta) : Bool :=
  hasDelta s && !s.hidden

theorem sortLE_trans (a b c : SessionMeta) (h1 : sortLE a b) (h2 : sortLE b c) :
    sortLE a c := by
  simp only [sortLE, decide_eq_true_eq] at h1 h2 ⊢
  exact le_trans h2 h1

theorem sortLE_total (a b : SessionMeta) : sortLE a b || sortLE b a := by
  simp only [sortLE, Bool.or_eq_true, decide_eq_true_eq]
  exact le_total (deltaOf b) (deltaOf a)

/-- Stability of the ranking, phrased per key: for every delta value
`d`, the sessions whose key is `d` appear in the sorted list in exactly
their original relative order. -/
theorem mergeSort_filter_key (L : List SessionMeta) (d : ℚ) :
    (L.mergeSort sortLE).filter (fun s => deltaOf s = d)
      = L.filter (fun s => deltaOf s = d) := by
  have hpair : (L.filter fun s => deltaOf s = d).Pairwise
      (fun a b => sortLE a b = true) := by
    apply List.pairwise_of_forall_mem_list
    intro a ha b hb
    have hda := of_decide_eq_true (List.mem_filter.mp ha).2
    have hdb := of_decide_eq_true (List.mem_filter.mp hb).2
    simp only [sortLE, decide_eq_true_eq]
    rw [hda, hdb]
  have hsub : (L.filter fun s => deltaOf s = d).Sublist (L.mergeSort sortLE) :=
    List.sublist_mergeSort sortLE_trans sortLE_total hpair (List.filter_sublist L)
  have hself : (L.filter fun s => deltaOf s = d).filter (fun s => deltaOf s = d)
      = L.filter fun s => deltaOf s = d :=
    List.filter_eq_self.mpr fun a ha => (List.mem_filter.mp ha).2
  have hsub2 : (L.filter fun s => deltaOf s = d).Sublist
      ((L.mergeSort sortLE).filter (fun s => deltaOf s = d)) := by
    have h := hsub.filter (fun s => decide (deltaOf s = d))
    rwa [hself] at h
  have hperm : ((L.mergeSort sortLE).filter (fun s => deltaOf s = d)).Perm
      (L.filter fun s => deltaOf s = d) :=
    (List.mergeSort_perm L sortLE).filter _
  exact (hsub2.eq_of_length hperm.length_eq.symm).symm

/-- C3.  `topSessions` is the take-10 of the stable descending sort of
exactly the non-hidden sessions carrying a `usageDelta`: the two source
filters fuse to `eligible`; the list is capped at 10; every entry is
non-hidden and has a delta; the sorted list is a permutation of the
eligible sessions, is descending in `fiveHourDelta`, and is stable —
ties keep their original relative order (the per-key filter is
preserved). -/
theorem topSessions_spec (all : List SessionMeta) :
    (statsOf all).topSessions = ((all.filter eligible).mergeSort sortLE).take 10
    ∧ (statsOf all).topSessions.length = min 10 (all.filter eligible).length
    ∧ (∀ s ∈ (statsOf all).topSessions, s.hidden = false ∧ hasDelta s = true)
    ∧ ((all.filter eligible).mergeSort sortLE).Perm (all.filter eligible)
    ∧ ((all.filter eligible).mergeSort sortLE).Pairwise
        (fun a b => deltaOf b ≤ deltaOf a)
    ∧ (∀ d : ℚ,
        ((all.filter eligible).mergeSort sortLE).filter (fun s => deltaOf s = d)
          = (all.filter eligible).filter (fun s => deltaOf s = d)) := by
  have hfuse : (all.filter fun s => !s.hidden).filter (fun s => hasDelta s)
      = all.filter eligible := by
    rw [List.filter_filter]
    rfl
  have htop : (statsOf all).topSessions
      = ((all.filter eligible).mergeSort sortLE).take 10 := by
    unfold statsOf statsOfVisible
    rw [hfuse]
  refine ⟨htop, ?_, ?_, List.mergeSort_perm _ _, ?_, mergeSort_filter_key _⟩
  · rw [htop]
    simp
  · intro s hs
    rw [htop] at hs
    have hmem : s ∈ (all.filter eligible).mergeSort sortLE :=
      (List.take_sublist 10 _).subset hs
    have : eligible s = true := (List.mem_filter.mp (List.mem_mergeSort.mp hmem)).2
    unfold eligible at this
    simp only [Bool.and_eq_true, Bool.not_eq_true'] at this
    exact ⟨this.2, this.1⟩
  · have h := List.sorted_mergeSort sortLE_trans sortLE_total
      (all.filter eligible)
    exact h.imp fun hab => of_decide_eq_true hab

/-- Witness for C3: on a singleton collection the sole visible session
with a delta is in `topSessions`, and the theorem yields its
non-hiddenness and delta, plus the stability equation at key 5. -/
theorem topSessions_spec_witness :
    ((⟨"a", false, some ⟨1, 2, 100, 4, 0, some ⟨5, 1, none⟩⟩⟩ : SessionMeta).hidden
        = false
      ∧ hasDelta ⟨"a", false, some ⟨1, 2, 100, 4, 0, some ⟨5, 1, none⟩⟩⟩ = true)
    ∧ (([(⟨"a", false, some ⟨1, 2, 100, 4, 0,
            some ⟨5, 1, none⟩⟩⟩ : SessionMeta)].filter eligible).mergeSort
          sortLE).filter (fun s => deltaOf s = 5)
      = ([(⟨"a", false, some ⟨1, 2, 100, 4, 0,
            some ⟨5, 1, none⟩⟩⟩ : SessionMeta)].filter eligible).filter
          (fun s => deltaOf s = 5) :=
  ⟨(topSessions_spec
      [⟨"a", false, some ⟨1, 2, 100, 4, 0, some ⟨5, 1, none⟩⟩⟩]).2.2.1 _
    (by simp [statsOf, statsOfVisible, eligible, hasDelta]),
   (topSessions_spec
      [⟨"a", false, some ⟨1, 2, 100, 4, 0, some ⟨5, 1, none⟩⟩⟩]).2.2.2.2.2 5⟩

/-- C8.  A hidden session contributes nothing: inserting a session
flagged hidden anywhere in the collection — whatever token usage and
usage delta it carries — leaves every field of the aggregate, including
`topSessions`, unchanged. -/
theorem hidden_session_no_contribution (l1 l2 : List SessionMeta)
    (s : SessionMeta) (hs : s.hidden = true) :
    statsOf (l1 ++ s :: l2) = statsOf (l1 ++ l2) := by
  unfold statsOf
  have h : (l1 ++ s :: l2).filter (fun s => !s.hidden)
      = (l1 ++ l2).filter (fun s => !s.hidden) := by
    simp [List.filter_append, List.filter_cons, hs]
  rw [h]

/-- Witness for C8: a hidden session with heavy usage added after a
visible one changes no aggregate field. -/
theorem hidden_session_no_contribution_witness :
    statsOf [⟨"a", false, some ⟨1, 2, 100, 4, 0, some ⟨5, 1, none⟩⟩⟩,
        ⟨"h", true, some ⟨9, 9, 400, 9, 0, some ⟨100, 3, none⟩⟩⟩]
      = statsOf [⟨"a", false, some ⟨1, 2, 100, 4, 0, some ⟨5, 1, none⟩⟩⟩] :=
  hidden_session_no_contribution
    [⟨"a", false, some ⟨1, 2, 100, 4, 0, some ⟨5, 1, none⟩⟩⟩] []
    ⟨"h", true, some ⟨9, 9, 400, 9, 0, some ⟨100, 3, none⟩⟩⟩ rfl

end CraftUsage
